import Mathlib

/-!
Shallow embedding of the `statesync` package's `Reactor` (reactor.go):
the state-sync reactor's message dispatch (`Start`), the legacy
peer callbacks (`AddPeer`, `RemovePeer`), snapshot advertisement
(`recentSnapshots`), and the `Sync` entry point.

Go side effects (log calls, channel sends, lock operations, calls into
the syncer session and the peer-error mechanism) are embedded as an
explicit ordered event trace.  Machine integers (uint32/uint64 heights,
formats, chunk counts, indices) are represented as `Nat`; the reactor
performs no arithmetic on them, so no overflow modelling is needed.
Byte strings (hashes, metadata, chunk payloads) are `List Nat`; a Go
nil byte slice is `Option.none`.
-/

namespace StateSync

/-- Peer identifier (`p2p.ID` / `p2p.PeerID`), an opaque string. -/
abbrev PeerID := String

/-- `SnapshotChannel` exchanges snapshot metadata (byte 0x60). -/
def SnapshotChannel : Nat := 0x60

/-- `ChunkChannel` exchanges chunk contents (byte 0x61). -/
def ChunkChannel : Nat := 0x61

/-- `recentSnapshots` is the number of recent snapshots to send and receive per peer. -/
def recentSnapshots : Nat := 10

/-- The package's `snapshot` record (fields copied from the abci snapshot). -/
structure Snapshot where
  Height : Nat
  Format : Nat
  Chunks : Nat
  Hash : List Nat
  Metadata : List Nat
deriving DecidableEq, Repr

/-- The package's `chunk` record: one piece of a snapshot, tagged with its sender. -/
structure ChunkRec where
  Height : Nat
  Format : Nat
  Index : Nat
  Chunk : Option (List Nat)
  Sender : PeerID
deriving DecidableEq, Repr

/-- The wire messages of the state-sync protocol (`ssproto`), plus `other`
for any message type the reactor's type switches do not recognize. -/
inductive Message where
  | snapshotsRequest : Message
  | snapshotsResponse (Height Format Chunks : Nat) (Hash Metadata : List Nat) : Message
  | chunkRequest (Height Format Index : Nat) : Message
  | chunkResponse (Height Format Index : Nat) (Chunk : Option (List Nat)) (Missing : Bool) : Message
  | other (tag : Nat) : Message
deriving DecidableEq, Repr

/-- `p2p.Envelope`: a message plus addressing metadata. -/
structure Envelope where
  From : PeerID := ""
  To : Option PeerID := none
  Broadcast : Bool := false
  Message : Message
deriving DecidableEq, Repr

/-- A call the reactor makes into the active syncer session. -/
inductive SyncerCall where
  | addSnapshot (peer : PeerID) (s : Snapshot)
  | addChunk (c : ChunkRec)
  | addPeer (peer : PeerID)
  | removePeer (peer : PeerID)
deriving DecidableEq, Repr

/-- One observable side effect of the reactor code, in program order. -/
inductive Event where
  | rlock : Event
  | runlock : Event
  | logDebug (msg : String) : Event
  | logError (msg : String) : Event
  | send (e : Envelope) : Event
  | syncerCall (c : SyncerCall) : Event
  | peerError (peer : PeerID) : Event
deriving DecidableEq, Repr

/-- The application collaborator (`proxy.AppConnSnapshot`), given as oracles:
the result of `ListSnapshotsSync` and of `LoadSnapshotChunkSync` at each
(height, format, chunk index).  `.ok none` for a chunk means the app
returned a nil chunk payload. -/
structure AppConnSnapshot where
  ListSnapshotsSync : Except String (List Snapshot)
  LoadSnapshotChunkSync : Nat → Nat → Nat → Except String (Option (List Nat))

/-- Results of the active syncer session's `AddSnapshot` / `AddChunk`
calls, given as oracles (the syncer's own code is outside this file's
scope; the reactor only branches on whether these calls error). -/
structure SyncerOracle where
  AddSnapshotResult : PeerID → Snapshot → Except String Bool
  AddChunkResult : ChunkRec → Except String Bool

/-- The outcome of handling one inbound message / peer update in `Start`'s
dispatch loop: the events executed during the iteration, the actions the
iteration `defer`red (which Go runs only when `Start` itself returns, not
at the end of the loop iteration), and the value of the reactor's `syncer`
field afterwards. -/
structure HandlerOut where
  events : List Event
  deferred : List Event := []
  syncer : Option Nat
deriving DecidableEq, Repr

/-- The comparator passed to `sort.Slice` in `recentSnapshots`:
`a` sorts strictly before `b` (descending by Height, then Format). -/
def snapshotLess (a b : Snapshot) : Bool :=
  decide (a.Height > b.Height ∨ (a.Height = b.Height ∧ a.Format > b.Format))

/-- The non-strict order established by sorting with `snapshotLess`:
descending lexicographic on (Height, Format). -/
def SnapshotGE (a b : Snapshot) : Prop :=
  b.Height < a.Height ∨ (a.Height = b.Height ∧ b.Format ≤ a.Format)

instance : DecidableRel SnapshotGE := fun a b => by
  unfold SnapshotGE; infer_instance

instance : IsTotal Snapshot SnapshotGE where
  total a b := by unfold SnapshotGE; omega

instance : IsTrans Snapshot SnapshotGE where
  trans a b c hab hbc := by unfold SnapshotGE at *; omega

/-- The `sort.Slice(resp.Snapshots, ...)` call in `recentSnapshots`,
embedded as a sort by the comparator's induced order. -/
def sortSnapshots (l : List Snapshot) : List Snapshot :=
  List.insertionSort SnapshotGE l

/-- `Reactor.recentSnapshots`: fetch the snapshot list from the app, sort it
descending by (Height, Format), and keep the first `recentSnapshots` (10)
entries — the loop bound is the package constant, not the parameter `n`,
which only sizes the initial slice capacity. -/
def Reactor.recentSnapshots (conn : AppConnSnapshot) (n : Nat) : Except String (List Snapshot) :=
  match conn.ListSnapshotsSync with
  | .error e => .error e
  | .ok snaps =>
    let _capacity := n
    .ok ((sortSnapshots snaps).take StateSync.recentSnapshots)

/-- The `SnapshotsResponse` envelope that the `SnapshotsRequest` handler
sends for one snapshot: addressed to the requester, fields copied. -/
def mkSnapshotsResponse (toPeer : PeerID) (s : Snapshot) : Envelope :=
  { To := some toPeer,
    Message := .snapshotsResponse s.Height s.Format s.Chunks s.Hash s.Metadata }

/-- The `case envelope := <-r.snapshotCh.In` branch of `Reactor.Start`:
the type switch over the snapshot-channel message. -/
def handleSnapshotChMsg (conn : AppConnSnapshot) (osync : SyncerOracle)
    (syncer : Option Nat) (env : Envelope) : HandlerOut :=
  match env.Message with
  | .snapshotsRequest =>
    match Reactor.recentSnapshots conn StateSync.recentSnapshots with
    | .error _ => { events := [.logError "failed to fetch snapshots"], syncer := syncer }
    | .ok snapshots =>
      { events := snapshots.flatMap fun s =>
          [.logDebug "advertising snapshot", .send (mkSnapshotsResponse env.From s)],
        syncer := syncer }
  | .snapshotsResponse h f c hash md =>
    match syncer with
    | none =>
      { events := [.rlock, .logDebug "received unexpected snapshot; no state sync in progress"],
        deferred := [.runlock], syncer := syncer }
    | some _ =>
      let s : Snapshot := ⟨h, f, c, hash, md⟩
      match osync.AddSnapshotResult env.From s with
      | .error _ =>
        { events := [.rlock, .logDebug "received snapshot",
            .syncerCall (.addSnapshot env.From s), .logError "failed to add snapshot"],
          deferred := [.runlock], syncer := syncer }
      | .ok _ =>
        { events := [.rlock, .logDebug "received snapshot",
            .syncerCall (.addSnapshot env.From s)],
          deferred := [.runlock], syncer := syncer }
  | _ => { events := [.logError "received unknown message"], syncer := syncer }

/-- The `case envelope := <-r.chunkCh.In` branch of `Reactor.Start`:
the type switch over the chunk-channel message. -/
def handleChunkChMsg (conn : AppConnSnapshot) (osync : SyncerOracle)
    (syncer : Option Nat) (env : Envelope) : HandlerOut :=
  match env.Message with
  | .chunkRequest h f i =>
    match conn.LoadSnapshotChunkSync h f i with
    | .error _ =>
      { events := [.logDebug "received chunk request", .logError "failed to load chunk"],
        syncer := syncer }
    | .ok c =>
      { events := [.logDebug "received chunk request", .logDebug "sending chunk",
          .send { To := some env.From,
                  Message := .chunkResponse h f i c c.isNone }],
        syncer := syncer }
  | .chunkResponse h f i payload _missing =>
    match syncer with
    | none =>
      { events := [.rlock, .logDebug "received unexpected chunk, no state sync in progress"],
        deferred := [.runlock], syncer := syncer }
    | some _ =>
      let c : ChunkRec := ⟨h, f, i, payload, env.From⟩
      match osync.AddChunkResult c with
      | .error _ =>
        { events := [.rlock, .logDebug "received chunk; adding to sync",
            .syncerCall (.addChunk c), .logError "failed to add chunk"],
          deferred := [.runlock], syncer := syncer }
      | .ok _ =>
        { events := [.rlock, .logDebug "received chunk; adding to sync",
            .syncerCall (.addChunk c)],
          deferred := [.runlock], syncer := syncer }
  | _ => { events := [.logError "received unknown message"], syncer := syncer }

/-- One source the `select` in `Reactor.Start` can fire on. -/
inductive Input where
  | snapshotMsg (env : Envelope)
  | chunkMsg (env : Envelope)
  | peerUpdate (p : PeerID)
deriving DecidableEq, Repr

/-- One iteration of `Reactor.Start`'s dispatch loop.  The peer-update
branch only logs (the source marks its handling `TODO`). -/
def startStep (conn : AppConnSnapshot) (osync : SyncerOracle)
    (syncer : Option Nat) : Input → HandlerOut
  | .snapshotMsg env => handleSnapshotChMsg conn osync syncer env
  | .chunkMsg env => handleChunkChMsg conn osync syncer env
  | .peerUpdate _p => { events := [.logDebug "peer update"], syncer := syncer }

/-- The events executed by `Reactor.Start` while processing a list of
inputs.  Deferred actions are *not* among them: Go runs a `defer`red call
only when the enclosing function (`Start`) returns. -/
def startRun (conn : AppConnSnapshot) (osync : SyncerOracle)
    (syncer : Option Nat) (inputs : List Input) : List Event :=
  inputs.flatMap fun i => (startStep conn osync syncer i).events

/-- The deferred actions accumulated by `Reactor.Start` over a list of
inputs; they run (in LIFO order) only when `Start` returns. -/
def startDeferred (conn : AppConnSnapshot) (osync : SyncerOracle)
    (syncer : Option Nat) (inputs : List Input) : List Event :=
  (inputs.flatMap fun i => (startStep conn osync syncer i).deferred).reverse

/-- Number of reader holds on `r.mtx` still outstanding after executing a
list of events. -/
def locksHeld (evs : List Event) : Nat :=
  evs.count Event.rlock - evs.count Event.runlock

/-- The envelopes sent (in order) within a list of events. -/
def sentEnvelopes (evs : List Event) : List Envelope :=
  evs.filterMap fun e => match e with | .send env => some env | _ => none

/-- The syncer-session calls made (in order) within a list of events. -/
def syncerCalls (evs : List Event) : List SyncerCall :=
  evs.filterMap fun e => match e with | .syncerCall c => some c | _ => none

/-- The peers reported to the peer-error mechanism within a list of events. -/
def peerErrorsOf (evs : List Event) : List PeerID :=
  evs.filterMap fun e => match e with | .peerError p => some p | _ => none

/-- The error-level log lines within a list of events. -/
def errorLogs (evs : List Event) : List String :=
  evs.filterMap fun e => match e with | .logError m => some m | _ => none

/-- `Reactor.RemovePeer` (legacy p2p callback): under the read lock, forward
the removal to the syncer session iff one is active.  Here the `defer`red
unlock does run at the end, because `RemovePeer` is its own function. -/
def Reactor.RemovePeer (syncer : Option Nat) (p : PeerID) : List Event :=
  match syncer with
  | none => [.rlock, .runlock]
  | some _ => [.rlock, .syncerCall (.removePeer p), .runlock]

/-- `Reactor.AddPeer` (legacy p2p callback): under the read lock, forward
the addition to the syncer session iff one is active. -/
def Reactor.AddPeer (syncer : Option Nat) (p : PeerID) : List Event :=
  match syncer with
  | none => [.rlock, .runlock]
  | some _ => [.rlock, .syncerCall (.addPeer p), .runlock]

/-- What one call to `Reactor.Sync` does, in program order. -/
structure SyncOutcome where
  /-- The error returned synchronously, before any other action. -/
  immediateError : Option String
  /-- `(channel, message)` pairs broadcast to all known peers before
  waiting on `SyncAny`. -/
  broadcasts : List (Nat × Message)
  /-- The value of `r.syncer` while `SyncAny` runs. -/
  sessionDuringWait : Option Nat
  /-- The value of `r.syncer` after `Sync` returns. -/
  finalSyncer : Option Nat
  /-- The `(state, commit)` result returned to the caller. -/
  result : Except String (Nat × Nat)
deriving Repr

/-- `Reactor.Sync`: under the write lock, refuse if a session is active;
otherwise install a fresh session, broadcast a `SnapshotsRequest` on the
snapshot channel, run `SyncAny` (its result is the oracle
`syncAnyResult`), and clear the session.  `newSession` stands for the
`newSyncer(...)` value, `syncer` for the field's prior value. -/
def Reactor.Sync (syncer : Option Nat) (newSession : Nat)
    (syncAnyResult : Except String (Nat × Nat)) : SyncOutcome :=
  match syncer with
  | some s =>
    { immediateError := some "a state sync is already in progress",
      broadcasts := [],
      sessionDuringWait := some s,
      finalSyncer := some s,
      result := .error "a state sync is already in progress" }
  | none =>
    { immediateError := none,
      broadcasts := [(SnapshotChannel, .snapshotsRequest)],
      sessionDuringWait := some newSession,
      finalSyncer := none,
      result := syncAnyResult }

/-- Whether a message is one of the types the snapshot-channel type switch
recognizes (`SnapshotsRequest`, `SnapshotsResponse`). -/
def isSnapshotChKnown : Message → Bool
  | .snapshotsRequest => true
  | .snapshotsResponse .. => true
  | _ => false

/-- Whether a message is one of the types the chunk-channel type switch
recognizes (`ChunkRequest`, `ChunkResponse`). -/
def isChunkChKnown : Message → Bool
  | .chunkRequest .. => true
  | .chunkResponse .. => true
  | _ => false

/-- Sample snapshots used to exercise the definitions on concrete inputs. -/
def sampleSnapA : Snapshot := ⟨1, 1, 1, [], []⟩

/-- Second sample snapshot (height 2, format 1). -/
def sampleSnapB : Snapshot := ⟨2, 1, 3, [5], [7]⟩

/-- Third sample snapshot (height 2, format 2). -/
def sampleSnapC : Snapshot := ⟨2, 2, 3, [9], []⟩

/-- A sample application collaborator: three snapshots listed out of
order, a chunk at (1,1,0), nil chunks at height 2, errors elsewhere. -/
def sampleConn : AppConnSnapshot :=
  { ListSnapshotsSync := .ok [sampleSnapA, sampleSnapC, sampleSnapB],
    LoadSnapshotChunkSync := fun h f i =>
      if h = 1 ∧ f = 1 ∧ i = 0 then .ok (some [1, 2])
      else if h = 2 then .ok none
      else .error "load failed" }

/-- A sample syncer-session oracle whose bookkeeping calls all succeed. -/
def sampleOsync : SyncerOracle :=
  { AddSnapshotResult := fun _ _ => .ok true, AddChunkResult := fun _ => .ok true }

/-- A sample inbound `SnapshotsRequest` envelope from peer `p`. -/
def reqEnvP : Envelope := { From := "p", Message := .snapshotsRequest }

/-- A sample inbound `SnapshotsResponse` envelope from peer `p`. -/
def snapRespEnv : Envelope := { From := "p", Message := .snapshotsResponse 2 1 3 [5] [7] }

/-- A sample inbound `ChunkResponse` envelope from peer `q`. -/
def chunkRespEnv : Envelope := { From := "q", Message := .chunkResponse 2 1 0 (some [1]) false }

/-- A sample inbound `ChunkRequest` envelope from peer `q` for a chunk the
app can load. -/
def chunkReqEnv : Envelope := { From := "q", Message := .chunkRequest 1 1 0 }

/-- A sample inbound `ChunkRequest` envelope for coordinates on which the
app collaborator errors. -/
def chunkReqEnvBad : Envelope := { From := "q", Message := .chunkRequest 3 0 0 }

/-- A `ChunkRequest` arriving on the snapshot channel: not a recognized
snapshot-channel message type. -/
def unknownSnapEnv : Envelope := { From := "p", Message := .chunkRequest 1 1 0 }

/-- A `SnapshotsRequest` arriving on the chunk channel: not a recognized
chunk-channel message type. -/
def unknownChunkEnv : Envelope := { From := "p", Message := .snapshotsRequest }

/-- Extracting the sent envelopes from the advertise loop of the
`SnapshotsRequest` handler yields one response per snapshot, in order. -/
theorem sentEnvelopes_advertise (l : List Snapshot) (p : PeerID) :
    sentEnvelopes (l.flatMap fun s =>
        [Event.logDebug "advertising snapshot", Event.send (mkSnapshotsResponse p s)])
      = l.map (mkSnapshotsResponse p) := by
  induction l with
  | nil => rfl
  | cons a t ih =>
    simp only [List.flatMap_cons, sentEnvelopes, List.filterMap_append, List.map_cons] at *
    simpa using ih

/-- The truncated sorted snapshot list is sorted descending by
(Height, Format). -/
theorem pairwise_sortSnapshots_take (l : List Snapshot) (k : Nat) :
    List.Pairwise SnapshotGE ((sortSnapshots l).take k) :=
  List.Pairwise.sublist (List.take_sublist k (sortSnapshots l))
    (List.sorted_insertionSort SnapshotGE l)

/-- Claim C1: when a syncer session is active, `Reactor.Sync` returns the
error "a state sync is already in progress" immediately, broadcasts no
`SnapshotsRequest`, and leaves the existing session field unchanged (both
during and after the call). -/
theorem C1_sync_exclusive (s newSession : Nat) (syncAnyResult : Except String (Nat × Nat)) :
    (Reactor.Sync (some s) newSession syncAnyResult).immediateError
        = some "a state sync is already in progress"
    ∧ (Reactor.Sync (some s) newSession syncAnyResult).broadcasts = []
    ∧ (Reactor.Sync (some s) newSession syncAnyResult).sessionDuringWait = some s
    ∧ (Reactor.Sync (some s) newSession syncAnyResult).finalSyncer = some s
    ∧ (Reactor.Sync (some s) newSession syncAnyResult).result
        = .error "a state sync is already in progress" :=
  ⟨rfl, rfl, rfl, rfl, rfl⟩

/-- Claim C6: a `Reactor.Sync` call that creates a new session (no session
was active) broadcasts exactly one `SnapshotsRequest` on the snapshot
channel before waiting on `SyncAny`, and returns no immediate error. -/
theorem C6_sync_broadcasts_snapshots_request (newSession : Nat)
    (syncAnyResult : Except String (Nat × Nat)) :
    (Reactor.Sync none newSession syncAnyResult).broadcasts
        = [(SnapshotChannel, .snapshotsRequest)]
    ∧ (Reactor.Sync none newSession syncAnyResult).immediateError = none
    ∧ (Reactor.Sync none newSession syncAnyResult).sessionDuringWait = some newSession :=
  ⟨rfl, rfl, rfl⟩

/-- Claim C2: on an inbound `SnapshotsRequest`, when the app collaborator
lists `snaps`, the reactor sends exactly one `SnapshotsResponse` per kept
snapshot, where the kept list is the sorted list truncated to the
`recentSnapshots` constant: it is a prefix of a descending
(Height, Format) reordering of `snaps`, has at most 10 entries, each
response is addressed To the requesting peer and copies the snapshot
fields unchanged. -/
theorem C2_snapshots_request_handling (conn : AppConnSnapshot) (osync : SyncerOracle)
    (syncer : Option Nat) (env : Envelope) (snaps : List Snapshot)
    (hls : conn.ListSnapshotsSync = .ok snaps)
    (hmsg : env.Message = .snapshotsRequest) :
    sentEnvelopes (handleSnapshotChMsg conn osync syncer env).events
        = ((sortSnapshots snaps).take StateSync.recentSnapshots).map (mkSnapshotsResponse env.From)
    ∧ List.Pairwise SnapshotGE ((sortSnapshots snaps).take StateSync.recentSnapshots)
    ∧ ((sortSnapshots snaps).take StateSync.recentSnapshots).length ≤ 10
    ∧ List.Perm (sortSnapshots snaps) snaps
    ∧ ∀ e ∈ sentEnvelopes (handleSnapshotChMsg conn osync syncer env).events,
        e.To = some env.From := by
  have hsend : sentEnvelopes (handleSnapshotChMsg conn osync syncer env).events
      = ((sortSnapshots snaps).take StateSync.recentSnapshots).map (mkSnapshotsResponse env.From) := by
    simp only [handleSnapshotChMsg, hmsg, Reactor.recentSnapshots, hls]
    exact sentEnvelopes_advertise _ _
  refine ⟨hsend, pairwise_sortSnapshots_take snaps _, ?_, List.perm_insertionSort SnapshotGE snaps, ?_⟩
  · exact List.length_take_le _ _
  · intro e he
    rw [hsend] at he
    obtain ⟨s, _, rfl⟩ := List.mem_map.mp he
    rfl

/-- Witness for C2 at a concrete app collaborator listing three snapshots
out of order. -/
theorem C2_witness :
    sampleConn.ListSnapshotsSync = .ok [sampleSnapA, sampleSnapC, sampleSnapB]
    ∧ reqEnvP.Message = .snapshotsRequest
    ∧ sentEnvelopes (handleSnapshotChMsg sampleConn sampleOsync none reqEnvP).events
        = ((sortSnapshots [sampleSnapA, sampleSnapC, sampleSnapB]).take
            StateSync.recentSnapshots).map (mkSnapshotsResponse reqEnvP.From)
    ∧ sentEnvelopes (handleSnapshotChMsg sampleConn sampleOsync none reqEnvP).events
        = [mkSnapshotsResponse "p" sampleSnapC, mkSnapshotsResponse "p" sampleSnapB,
           mkSnapshotsResponse "p" sampleSnapA] :=
  ⟨rfl, rfl,
    (C2_snapshots_request_handling sampleConn sampleOsync none reqEnvP
      [sampleSnapA, sampleSnapC, sampleSnapB] rfl rfl).1,
    by decide⟩

/-- Claim C9: `Reactor.recentSnapshots` caps its result at the package
constant `recentSnapshots` (= 10) regardless of the parameter `n`, and
the returned slice is sorted descending by (Height, Format). -/
theorem C9_recent_snapshots_cap_and_order (conn : AppConnSnapshot) (n m : Nat)
    (snaps l : List Snapshot)
    (hls : conn.ListSnapshotsSync = .ok snaps)
    (hl : Reactor.recentSnapshots conn n = .ok l) :
    l.length ≤ StateSync.recentSnapshots
    ∧ StateSync.recentSnapshots = 10
    ∧ List.Pairwise SnapshotGE l
    ∧ Reactor.recentSnapshots conn n = Reactor.recentSnapshots conn m := by
  have hdef : Reactor.recentSnapshots conn n
      = .ok ((sortSnapshots snaps).take StateSync.recentSnapshots) := by
    simp only [Reactor.recentSnapshots, hls]
  have hleq : l = (sortSnapshots snaps).take StateSync.recentSnapshots := by
    have := hdef ▸ hl
    exact (Except.ok.injEq _ _).mp this.symm
  refine ⟨?_, rfl, ?_, ?_⟩
  · rw [hleq]; exact List.length_take_le _ _
  · rw [hleq]; exact pairwise_sortSnapshots_take snaps _
  · simp only [Reactor.recentSnapshots, hls]

/-- Witness for C9: the parameter 3 does not truncate the result to 3. -/
theorem C9_witness :
    sampleConn.ListSnapshotsSync = .ok [sampleSnapA, sampleSnapC, sampleSnapB]
    ∧ Reactor.recentSnapshots sampleConn 3 = .ok [sampleSnapC, sampleSnapB, sampleSnapA]
    ∧ [sampleSnapC, sampleSnapB, sampleSnapA].length ≤ StateSync.recentSnapshots
    ∧ List.Pairwise SnapshotGE [sampleSnapC, sampleSnapB, sampleSnapA]
    ∧ Reactor.recentSnapshots sampleConn 3 = Reactor.recentSnapshots sampleConn 0 :=
  ⟨rfl, by rfl,
    (C9_recent_snapshots_cap_and_order sampleConn 3 0
      [sampleSnapA, sampleSnapC, sampleSnapB] [sampleSnapC, sampleSnapB, sampleSnapA]
      rfl (by rfl)).1,
    (C9_recent_snapshots_cap_and_order sampleConn 3 0
      [sampleSnapA, sampleSnapC, sampleSnapB] [sampleSnapC, sampleSnapB, sampleSnapA]
      rfl (by rfl)).2.2.1,
    (C9_recent_snapshots_cap_and_order sampleConn 3 0
      [sampleSnapA, sampleSnapC, sampleSnapB] [sampleSnapC, sampleSnapB, sampleSnapA]
      rfl (by rfl)).2.2.2⟩

/-- Claim C3: on an inbound `ChunkRequest` for which the app collaborator
loads without error, the reactor sends back exactly one `ChunkResponse`
echoing the requested Height, Format and Index, whose Missing field is
true exactly when the loaded payload is nil; no error is logged and the
exchange does not fail. -/
theorem C3_chunk_request_success (conn : AppConnSnapshot) (osync : SyncerOracle)
    (syncer : Option Nat) (env : Envelope) (h f i : Nat) (c : Option (List Nat))
    (hload : conn.LoadSnapshotChunkSync h f i = .ok c)
    (hmsg : env.Message = .chunkRequest h f i) :
    sentEnvelopes (handleChunkChMsg conn osync syncer env).events
        = [{ To := some env.From, Message := .chunkResponse h f i c c.isNone }]
    ∧ errorLogs (handleChunkChMsg conn osync syncer env).events = []
    ∧ (c.isNone = true ↔ c = none)
    ∧ (handleChunkChMsg conn osync syncer env).syncer = syncer := by
  simp only [handleChunkChMsg, hmsg, hload]
  exact ⟨rfl, rfl, Option.isNone_iff_eq_none, trivial⟩

/-- Witness for C3: a present chunk (Missing = false) and a nil chunk
(Missing = true), both answered without error. -/
theorem C3_witness :
    sampleConn.LoadSnapshotChunkSync 1 1 0 = .ok (some [1, 2])
    ∧ chunkReqEnv.Message = .chunkRequest 1 1 0
    ∧ sentEnvelopes (handleChunkChMsg sampleConn sampleOsync none chunkReqEnv).events
        = [{ To := some chunkReqEnv.From,
             Message := .chunkResponse 1 1 0 (some [1, 2]) (some [1, 2]).isNone }]
    ∧ errorLogs (handleChunkChMsg sampleConn sampleOsync none chunkReqEnv).events = []
    ∧ sentEnvelopes (handleChunkChMsg sampleConn sampleOsync none
          { From := "q", Message := .chunkRequest 2 0 0 }).events
        = [{ To := some "q", Message := .chunkResponse 2 0 0 none true }] :=
  ⟨rfl, rfl,
    (C3_chunk_request_success sampleConn sampleOsync none chunkReqEnv 1 1 0 (some [1, 2])
      rfl rfl).1,
    (C3_chunk_request_success sampleConn sampleOsync none chunkReqEnv 1 1 0 (some [1, 2])
      rfl rfl).2.1,
    by decide⟩

/-- Claim C10: on an inbound `ChunkRequest` for which the app collaborator
errors, the reactor sends nothing at all (no payload, no Missing = true
response): it logs the error and abandons the exchange. -/
theorem C10_chunk_request_load_error (conn : AppConnSnapshot) (osync : SyncerOracle)
    (syncer : Option Nat) (env : Envelope) (h f i : Nat) (e : String)
    (hload : conn.LoadSnapshotChunkSync h f i = .error e)
    (hmsg : env.Message = .chunkRequest h f i) :
    sentEnvelopes (handleChunkChMsg conn osync syncer env).events = []
    ∧ (handleChunkChMsg conn osync syncer env).events
        = [.logDebug "received chunk request", .logError "failed to load chunk"]
    ∧ (handleChunkChMsg conn osync syncer env).syncer = syncer := by
  refine ⟨?_, ?_, ?_⟩ <;> simp [handleChunkChMsg, hmsg, hload, sentEnvelopes]

/-- Witness for C10 at a concrete request whose chunk load fails. -/
theorem C10_witness :
    sampleConn.LoadSnapshotChunkSync 3 0 0 = .error "load failed"
    ∧ chunkReqEnvBad.Message = .chunkRequest 3 0 0
    ∧ sentEnvelopes (handleChunkChMsg sampleConn sampleOsync none chunkReqEnvBad).events = []
    ∧ (handleChunkChMsg sampleConn sampleOsync none chunkReqEnvBad).events
        = [.logDebug "received chunk request", .logError "failed to load chunk"] :=
  ⟨rfl, rfl,
    (C10_chunk_request_load_error sampleConn sampleOsync none chunkReqEnvBad 3 0 0
      "load failed" rfl rfl).1,
    (C10_chunk_request_load_error sampleConn sampleOsync none chunkReqEnvBad 3 0 0
      "load failed" rfl rfl).2.1⟩

/-- Claim C4: a `SnapshotsResponse` or `ChunkResponse` received with no
active syncer session is discarded without error and without mutating
state (no send, no syncer call, no error log, syncer field unchanged);
with an active session, the snapshot is forwarded as
`AddSnapshot(sender, snapshot)` and the chunk as `AddChunk` of a record
carrying the sender. -/
theorem C4_response_dispatch (conn : AppConnSnapshot) (osync : SyncerOracle)
    (syncer : Option Nat) (envS envC : Envelope)
    (h f c : Nat) (hash md : List Nat)
    (h2 f2 i2 : Nat) (payload : Option (List Nat)) (m : Bool)
    (hS : envS.Message = .snapshotsResponse h f c hash md)
    (hC : envC.Message = .chunkResponse h2 f2 i2 payload m) :
    ((handleSnapshotChMsg conn osync syncer envS).syncer = syncer
      ∧ (handleChunkChMsg conn osync syncer envC).syncer = syncer)
    ∧ (syncer = none →
        sentEnvelopes (handleSnapshotChMsg conn osync syncer envS).events = []
        ∧ syncerCalls (handleSnapshotChMsg conn osync syncer envS).events = []
        ∧ errorLogs (handleSnapshotChMsg conn osync syncer envS).events = []
        ∧ sentEnvelopes (handleChunkChMsg conn osync syncer envC).events = []
        ∧ syncerCalls (handleChunkChMsg conn osync syncer envC).events = []
        ∧ errorLogs (handleChunkChMsg conn osync syncer envC).events = [])
    ∧ (∀ sess : Nat, syncer = some sess →
        syncerCalls (handleSnapshotChMsg conn osync syncer envS).events
            = [.addSnapshot envS.From ⟨h, f, c, hash, md⟩]
        ∧ syncerCalls (handleChunkChMsg conn osync syncer envC).events
            = [.addChunk ⟨h2, f2, i2, payload, envC.From⟩]) := by
  simp only [handleSnapshotChMsg, handleChunkChMsg, hS, hC]
  refine ⟨?_, ?_, ?_⟩
  · cases syncer with
    | none => exact ⟨rfl, rfl⟩
    | some sess =>
      constructor
      · cases osync.AddSnapshotResult envS.From ⟨h, f, c, hash, md⟩ <;> rfl
      · cases osync.AddChunkResult ⟨h2, f2, i2, payload, envC.From⟩ <;> rfl
  · rintro rfl
    exact ⟨rfl, rfl, rfl, rfl, rfl, rfl⟩
  · rintro sess rfl
    constructor
    · cases osync.AddSnapshotResult envS.From ⟨h, f, c, hash, md⟩ <;> rfl
    · cases osync.AddChunkResult ⟨h2, f2, i2, payload, envC.From⟩ <;> rfl

/-- Witness for C4, exercising both the no-session (discard) and the
active-session (forward) branches at concrete envelopes. -/
theorem C4_witness :
    (sentEnvelopes (handleSnapshotChMsg sampleConn sampleOsync none snapRespEnv).events = []
      ∧ syncerCalls (handleSnapshotChMsg sampleConn sampleOsync none snapRespEnv).events = []
      ∧ errorLogs (handleSnapshotChMsg sampleConn sampleOsync none snapRespEnv).events = []
      ∧ sentEnvelopes (handleChunkChMsg sampleConn sampleOsync none chunkRespEnv).events = []
      ∧ syncerCalls (handleChunkChMsg sampleConn sampleOsync none chunkRespEnv).events = []
      ∧ errorLogs (handleChunkChMsg sampleConn sampleOsync none chunkRespEnv).events = [])
    ∧ (syncerCalls (handleSnapshotChMsg sampleConn sampleOsync (some 1) snapRespEnv).events
          = [.addSnapshot snapRespEnv.From ⟨2, 1, 3, [5], [7]⟩]
        ∧ syncerCalls (handleChunkChMsg sampleConn sampleOsync (some 1) chunkRespEnv).events
          = [.addChunk ⟨2, 1, 0, some [1], chunkRespEnv.From⟩]) :=
  ⟨(C4_response_dispatch sampleConn sampleOsync none snapRespEnv chunkRespEnv
      2 1 3 [5] [7] 2 1 0 (some [1]) false rfl rfl).2.1 rfl,
    (C4_response_dispatch sampleConn sampleOsync (some 1) snapRespEnv chunkRespEnv
      2 1 3 [5] [7] 2 1 0 (some [1]) false rfl rfl).2.2 1 rfl⟩

/-- Counterexample to claim C5: a `ChunkRequest` arriving on the snapshot
channel (an unrecognized type for that channel) is logged, but no report
is made to the peer-error mechanism — the dispatch loop never emits one —
so the sending peer is not flagged for disconnection. -/
theorem C5_counterexample :
    errorLogs (handleSnapshotChMsg sampleConn sampleOsync (some 1) unknownSnapEnv).events
        = ["received unknown message"]
    ∧ peerErrorsOf (handleSnapshotChMsg sampleConn sampleOsync (some 1) unknownSnapEnv).events
        = []
    ∧ peerErrorsOf (handleChunkChMsg sampleConn sampleOsync (some 1) unknownChunkEnv).events
        = [] :=
  ⟨rfl, rfl, rfl⟩

/-- Claim C5 as amended: an inbound message whose type is not recognized
for its channel makes the reactor log an error and do nothing else — no
peer-error report (the peer is not flagged for disconnection), no send,
no syncer call, no state change. -/
theorem C5_unknown_message_logged_only (conn : AppConnSnapshot) (osync : SyncerOracle)
    (syncer : Option Nat) (envS envC : Envelope)
    (hS : isSnapshotChKnown envS.Message = false)
    (hC : isChunkChKnown envC.Message = false) :
    handleSnapshotChMsg conn osync syncer envS
        = { events := [.logError "received unknown message"], deferred := [], syncer := syncer }
    ∧ handleChunkChMsg conn osync syncer envC
        = { events := [.logError "received unknown message"], deferred := [], syncer := syncer }
    ∧ peerErrorsOf (handleSnapshotChMsg conn osync syncer envS).events = []
    ∧ sentEnvelopes (handleSnapshotChMsg conn osync syncer envS).events = []
    ∧ syncerCalls (handleSnapshotChMsg conn osync syncer envS).events = []
    ∧ peerErrorsOf (handleChunkChMsg conn osync syncer envC).events = []
    ∧ sentEnvelopes (handleChunkChMsg conn osync syncer envC).events = []
    ∧ syncerCalls (handleChunkChMsg conn osync syncer envC).events = [] := by
  have h1 : handleSnapshotChMsg conn osync syncer envS
      = { events := [.logError "received unknown message"], deferred := [], syncer := syncer } := by
    cases hm : envS.Message <;>
      simp [handleSnapshotChMsg, hm] <;>
      simp [isSnapshotChKnown, hm] at hS
  have h2 : handleChunkChMsg conn osync syncer envC
      = { events := [.logError "received unknown message"], deferred := [], syncer := syncer } := by
    cases hm : envC.Message <;>
      simp [handleChunkChMsg, hm] <;>
      simp [isChunkChKnown, hm] at hC
  rw [h1, h2]
  exact ⟨rfl, rfl, rfl, rfl, rfl, rfl, rfl, rfl⟩

/-- Witness for the amended C5 at concrete cross-channel messages. -/
theorem C5_witness :
    isSnapshotChKnown unknownSnapEnv.Message = false
    ∧ isChunkChKnown unknownChunkEnv.Message = false
    ∧ handleSnapshotChMsg sampleConn sampleOsync (some 1) unknownSnapEnv
        = { events := [.logError "received unknown message"], deferred := [], syncer := some 1 }
    ∧ handleChunkChMsg sampleConn sampleOsync (some 1) unknownChunkEnv
        = { events := [.logError "received unknown message"], deferred := [], syncer := some 1 } :=
  ⟨rfl, rfl,
    (C5_unknown_message_logged_only sampleConn sampleOsync (some 1)
      unknownSnapEnv unknownChunkEnv rfl rfl).1,
    (C5_unknown_message_logged_only sampleConn sampleOsync (some 1)
      unknownSnapEnv unknownChunkEnv rfl rfl).2.1⟩

/-- Counterexample to claim C7: a peer update arriving in the dispatch
loop while a session is active is only logged (the source marks handling
`TODO`); it is not surfaced to the session — no peer-removal or other
bookkeeping call reaches the syncer. -/
theorem C7_counterexample :
    syncerCalls (startStep sampleConn sampleOsync (some 1) (.peerUpdate "p")).events = []
    ∧ (startStep sampleConn sampleOsync (some 1) (.peerUpdate "p")).events
        = [.logDebug "peer update"] :=
  ⟨rfl, rfl⟩

/-- Claim C7 as amended: peer updates received on the dispatch loop's
subscription are only logged and have no effect (their handling is a
`TODO` in the source); peer updates delivered through the legacy
`AddPeer` / `RemovePeer` callbacks are surfaced to the syncer session
exactly when one is active, and have no effect otherwise. -/
theorem C7_peer_update_handling (conn : AppConnSnapshot) (osync : SyncerOracle)
    (syncer : Option Nat) (p : PeerID) :
    (startStep conn osync syncer (.peerUpdate p)).events = [.logDebug "peer update"]
    ∧ (startStep conn osync syncer (.peerUpdate p)).syncer = syncer
    ∧ syncerCalls (startStep conn osync syncer (.peerUpdate p)).events = []
    ∧ Reactor.RemovePeer none p = [.rlock, .runlock]
    ∧ (∀ sess : Nat,
        Reactor.RemovePeer (some sess) p = [.rlock, .syncerCall (.removePeer p), .runlock])
    ∧ Reactor.AddPeer none p = [.rlock, .runlock]
    ∧ (∀ sess : Nat,
        Reactor.AddPeer (some sess) p = [.rlock, .syncerCall (.addPeer p), .runlock]) :=
  ⟨rfl, rfl, rfl, rfl, fun _ => rfl, rfl, fun _ => rfl⟩

/-- Claim C8 fails on the code: in the dispatch loop the `RUnlock` for a
`SnapshotsResponse` / `ChunkResponse` is registered with `defer` inside
the `for` loop, so Go runs it only when `Start` itself returns.  After a
single response message the read lock on `r.mtx` is still held (one
outstanding hold, the unlock sits on the deferred stack); after a second
response two holds are outstanding, and a subsequent `ChunkRequest` is
handled — including its network send — with the lock still held. -/
theorem C8_lock_held_across_messages :
    locksHeld (startRun sampleConn sampleOsync (some 1) [.snapshotMsg snapRespEnv]) = 1
    ∧ startDeferred sampleConn sampleOsync (some 1) [.snapshotMsg snapRespEnv] = [.runlock]
    ∧ locksHeld (startRun sampleConn sampleOsync (some 1)
        [.snapshotMsg snapRespEnv, .chunkMsg chunkRespEnv, .chunkMsg chunkReqEnv]) = 2
    ∧ sentEnvelopes (startRun sampleConn sampleOsync (some 1)
        [.snapshotMsg snapRespEnv, .chunkMsg chunkRespEnv, .chunkMsg chunkReqEnv])
        = [{ To := some "q", Message := .chunkResponse 1 1 0 (some [1, 2]) false }] := by
  refine ⟨by decide, by decide, by decide, by decide⟩

end StateSync
